import Mathlib

/-!
Verification of the QBR deck generator (app.py and qbr_generator.py).

The repository is a Streamlit tool: given a customer name it synthesizes mock
business metrics (`get_enhanced_mock_data`), renders charts, and assembles a
PowerPoint deck (`create_professional_qbr_deck`).  This file is a shallow
embedding of the data aggregator, the table/layout/composition routines, the
chart builder, the AI-summary routine, and the request handler's file
lifecycle, together with theorems settling the specification claims.

Machine-level conventions:
* CPython's string hash (used by `np.random.seed(hash(customer_name) % (2**32 - 1))`
  in app.py line 36) is modelled bit-exactly: SipHash-1-3 over the string's
  byte data, keyed by the per-process hash secret, cast to a signed 64-bit
  integer with the `-1 ↦ -2` adjustment.  The model was validated against
  CPython 3.11 (`PYTHONHASHSEED=0`: hash "Acme Co" = -2588000989717219520).
* numpy's legacy RandomState draws are abstracted as an arbitrary function of
  (seed, call index, arguments): every claim here concerns which inputs the
  results depend on, never the sampled values themselves (the spec itself
  declares the numeric ranges and sampling scheme non-contractual).
* Python floats appear only inside two `f"...{...:.2f}"`-style display strings
  and in date formatting; those formatted texts are likewise abstracted as
  functions of the inputs that produce them.
-/

namespace QBR

/-! ## CPython string hashing (pyhash.c, SipHash-1-3)

`app.py` line 36 seeds numpy with `hash(customer_name) % (2**32 - 1)`.
CPython's `hash` on `str` is `_Py_HashBytes` over the string's character data
(for ASCII strings: its UTF-8 bytes), i.e. `pysiphash13(k0, k1, data, len)`
keyed with the per-process hash secret `_Py_HashSecret.siphash`, with
`hash("") = 0` and the final `-1 ↦ -2` adjustment.  The secret is randomized
at interpreter startup unless `PYTHONHASHSEED` fixes it (seed `0` zeroes the
secret; a nonzero seed expands through the `lcg_urandom` generator). -/

/-- Truncation to 64 bits (C `uint64_t` arithmetic). -/
def wrap64 (n : Nat) : Nat := n % 2 ^ 64

/-- 64-bit left rotation (`ROTATE` in pyhash.c); `x < 2^64`, `0 < r < 64`. -/
def rotl64 (x r : Nat) : Nat := (wrap64 (x <<< r)) ||| (x >>> (64 - r))

/-- The four 64-bit SipHash state words `v0 v1 v2 v3`. -/
structure SipState where
  v0 : Nat
  v1 : Nat
  v2 : Nat
  v3 : Nat

/-- One `SINGLE_ROUND` of pyhash.c: `HALF_ROUND(v0,v1,v2,v3,13,16)` then
`HALF_ROUND(v2,v1,v0,v3,17,21)`. -/
def sipRound (s : SipState) : SipState :=
  let v0 := wrap64 (s.v0 + s.v1)
  let v2 := wrap64 (s.v2 + s.v3)
  let v1 := rotl64 s.v1 13 ^^^ v0
  let v3 := rotl64 s.v3 16 ^^^ v2
  let v0 := rotl64 v0 32
  let v2 := wrap64 (v2 + v1)
  let v0 := wrap64 (v0 + v3)
  let v1 := rotl64 v1 17 ^^^ v2
  let v3 := rotl64 v3 21 ^^^ v0
  let v2 := rotl64 v2 32
  ⟨v0, v1, v2, v3⟩

/-- Absorb one 64-bit message word: `v3 ^= t; SINGLE_ROUND; v0 ^= t`. -/
def sipUpdate (s : SipState) (m : Nat) : SipState :=
  let s1 := sipRound { s with v3 := s.v3 ^^^ m }
  { s1 with v0 := s1.v0 ^^^ m }

/-- Little-endian value of a byte list (first byte is least significant). -/
def le64 (bs : List Nat) : Nat := bs.foldr (fun b acc => b + 256 * acc) 0

/-- Absorb all full 8-byte blocks, returning the state and the tail bytes. -/
def sipBlocks (s : SipState) : List Nat → SipState × List Nat
  | b0 :: b1 :: b2 :: b3 :: b4 :: b5 :: b6 :: b7 :: rest =>
      sipBlocks (sipUpdate s (le64 [b0, b1, b2, b3, b4, b5, b6, b7])) rest
  | tail => (s, tail)

/-- `pysiphash(k0, k1, src, len)` of pyhash.c, SipHash-1-3 variant. -/
def siphash13 (k0 k1 : Nat) (data : List Nat) : Nat :=
  let s0 : SipState :=
    ⟨wrap64 k0 ^^^ 0x736f6d6570736575, wrap64 k1 ^^^ 0x646f72616e646f6d,
     wrap64 k0 ^^^ 0x6c7967656e657261, wrap64 k1 ^^^ 0x7465646279746573⟩
  let (s1, tail) := sipBlocks s0 data
  let b := wrap64 ((data.length % 256) <<< 56) ||| le64 tail
  let s2 := sipUpdate s1 b
  let s2 := { s2 with v2 := s2.v2 ^^^ 0xff }
  let s3 := sipRound (sipRound (sipRound s2))
  s3.v0 ^^^ s3.v1 ^^^ s3.v2 ^^^ s3.v3

/-- UTF-8 encoding of one character. -/
def utf8Encode (c : Char) : List Nat :=
  let n := c.toNat
  if n < 0x80 then [n]
  else if n < 0x800 then
    [0xC0 ||| (n >>> 6), 0x80 ||| (n &&& 0x3F)]
  else if n < 0x10000 then
    [0xE0 ||| (n >>> 12), 0x80 ||| ((n >>> 6) &&& 0x3F), 0x80 ||| (n &&& 0x3F)]
  else
    [0xF0 ||| (n >>> 18), 0x80 ||| ((n >>> 12) &&& 0x3F),
     0x80 ||| ((n >>> 6) &&& 0x3F), 0x80 ||| (n &&& 0x3F)]

/-- The byte data of a string (for the ASCII subject strings used here this is
exactly the buffer CPython hashes). -/
def strBytes (s : String) : List Nat := s.data.flatMap utf8Encode

/-- CPython `hash` of a string under hash secret `(k0, k1)`:
`_Py_HashBytes` = 0 for the empty buffer, else `siphash13` cast to a signed
64-bit `Py_hash_t`, with result `-1` replaced by `-2`. -/
def pyHashStr (k0 k1 : Nat) (s : String) : Int :=
  let data := strBytes s
  if data.length = 0 then 0
  else
    let h := siphash13 k0 k1 data
    let signed : Int := if h < 2 ^ 63 then (h : Int) else (h : Int) - 2 ^ 64
    if signed = -1 then -2 else signed

/-- The numpy seed computed by app.py line 36:
`np.random.seed(hash(customer_name) % (2**32 - 1))`.  Python's `%` on a
negative dividend and positive divisor returns a non-negative result, which is
`Int.emod`. -/
def npSeed (k0 k1 : Nat) (s : String) : Nat :=
  (pyHashStr k0 k1 s % ((2 : Int) ^ 32 - 1)).toNat

/-- CPython `lcg_urandom` step: `x = x * 214013 + 2531011 (mod 2^32)`. -/
def lcgStep (x : Nat) : Nat := (x * 214013 + 2531011) % 2 ^ 32

/-- `lcg_urandom(x0, buffer, size)`: each output byte is bits 16..23 of the
advancing LCG state. -/
def lcgBytes : Nat → Nat → List Nat
  | _, 0 => []
  | x, n + 1 =>
      let x1 := lcgStep x
      ((x1 >>> 16) &&& 0xff) :: lcgBytes x1 n

/-- The per-process hash secret `(k0, k1)` as a function of `PYTHONHASHSEED`:
seed 0 zeroes the secret; a nonzero seed fills it from `lcg_urandom`
(the two key words are read little-endian from the buffer). -/
def hashKeyOfSeed (seed : Nat) : Nat × Nat :=
  if seed = 0 then (0, 0)
  else
    let buf := lcgBytes seed 16
    (le64 (buf.take 8), le64 (buf.drop 8))

/-! ## The data aggregator: `get_enhanced_mock_data` (app.py lines 34-87)

The function seeds numpy once from the subject's hash, branches on the tone to
pick two text leads, then builds KPIs, tables, text lists and a roadmap, and
returns `locals()` — i.e. every local binding, including the tone bookkeeping
entries (`tone`, `challenge_prefix`, `learning_prefix`).

numpy's legacy `RandomState` is deterministic given the seed: successive calls
(`randint` / `uniform`, in program order) return values that are a pure
function of the seed and the call's position in the fixed call sequence.  We
abstract the generator as such a function, supplied as a parameter `NpRng`:
`randint seed pos lo hi` models the value of the `pos`-th draw when it is
`np.random.randint(lo, hi)`, and `uniformFmt seed pos` models the final
formatted text built from the `pos`-th draw when it is an `np.random.uniform`
value inside an f-string (absorbing the float arithmetic and `:.2f`/`:.1f`
formatting, which we do not model).  Likewise `fmtIso d` stands for
`strftime('%Y-%m-%d')` of the date with ordinal `d`. -/

/-- A Python value appearing in the data bag: an int or a display string. -/
inductive PyVal where
  | intv : Int → PyVal
  | strv : String → PyVal
deriving DecidableEq

/-- `str(value)` as applied to table cells by `add_styled_table_to_slide`. -/
def PyVal.pyStr : PyVal → String
  | .intv n => toString n
  | .strv s => s

/-- A pandas DataFrame built from a dict literal: ordered named columns. -/
abbrev Table := List (String × List PyVal)

/-- The deterministic value streams of numpy's seeded legacy RandomState,
abstracted as functions of the seed and the draw's position in the (fixed)
call sequence. -/
structure NpRng where
  randint : Nat → Nat → Int → Int → Int
  uniformFmt : Nat → Nat → String

/-- The mapping returned by `get_enhanced_mock_data` — its `locals()`:
subject, tone bookkeeping, KPIs, tables, text lists, roadmap.
(`challenge_lead` / `learning_lead` are the source's two tone-chosen text
leads that Python binds under the names `challenge_prefix` and
`learning_prefix`.) -/
structure ReportFacts where
  customer_name : String
  tone : String
  challenge_lead : String
  learning_lead : String
  kpis : List (String × PyVal)
  commit_vs_actual : Table
  challenges : List String
  learnings : List String
  okrs : Table
  roadmap : List (String × List String)
  revenue_forecast : Table
  action_plan : Table
deriving DecidableEq

/-- The body of `get_enhanced_mock_data` after `np.random.seed(...)`: every
field as a function of the seed (draw positions 0-10 in program order), the
subject, the tone and today's date ordinal. -/
def mockDataFromSeed (rng : NpRng) (fmtIso : Int → String) (seed : Nat)
    (customer_name tone : String) (today : Int) : ReportFacts :=
  let challenge_lead := if tone = "Optimistic" then "Opportunity for growth: " else ""
  let learning_lead := if tone = "Optimistic" then "Valuable insight gained: " else ""
  { customer_name := customer_name
    tone := tone
    challenge_lead := challenge_lead
    learning_lead := learning_lead
    kpis := [
      ("Account Health", .intv (rng.randint seed 0 75 98)),
      ("NPS", .intv (rng.randint seed 1 30 65)),
      ("Product Adoption (%)", .intv (rng.randint seed 2 60 95)),
      ("Active Users", .strv (toString (rng.randint seed 3 150 500))),
      ("Support Tickets Closed", .intv (rng.randint seed 4 25 100)),
      ("Renewal Date", .strv (fmtIso (today + rng.randint seed 5 90 365)))]
    commit_vs_actual := [
      ("Metric", [.strv "Feature Delivery", .strv "Uptime SLA", .strv "Avg. Ticket Response"]),
      ("Commitment", [.strv "5 New Features", .strv "99.9% Uptime", .strv "< 8 Hours"]),
      ("Actual", [.strv "6 New Features",
                  .strv (rng.uniformFmt seed 6 ++ "% Uptime"),
                  .strv (rng.uniformFmt seed 7 ++ " Hours")]),
      ("Status", [.strv "✅ Exceeded", .strv "✅ Met", .strv "✅ Met"])]
    challenges := [
      challenge_lead ++ "Initial onboarding for the new analytics module was slower than anticipated.",
      challenge_lead ++ "Integration with the legacy CRM system required custom development work.",
      challenge_lead ++ "User adoption in the finance department is lagging behind other teams."]
    learnings := [
      learning_lead ++ "A dedicated onboarding webinar for new modules significantly boosts initial adoption.",
      learning_lead ++ "Pre-sales technical discovery for legacy systems is crucial to scope integrations accurately.",
      learning_lead ++ "Targeted training sessions and identifying team champions accelerate department-level adoption."]
    okrs := [
      ("Objective", [.strv "Enhance Team Collaboration", .strv "Enhance Team Collaboration",
                     .strv "Improve Data-Driven Decisions", .strv "Improve Data-Driven Decisions"]),
      ("Key Result", [.strv "Increase shared dashboard usage by 20%",
                      .strv "Onboard the marketing team to the platform",
                      .strv "Complete integration with BI tool",
                      .strv "Train 5 team leads on advanced reporting"]),
      ("Status", [.strv "Not Started", .strv "Not Started", .strv "Not Started", .strv "Not Started"])]
    roadmap := [
      ("Q4 2025", ["AI-Powered Insights Engine", "Mobile App V2 Launch"]),
      ("Q1 2026", ["Advanced API Access", "Third-Party Integration Marketplace"]),
      ("Q2 2026", ["Predictive Analytics Module", "Team-based Permissions V3"])]
    revenue_forecast := [
      ("Month", [.strv "2025-10-01", .strv "2025-11-01", .strv "2025-12-01"]),
      ("Forecasted Revenue ($K)", [
        .intv (50 + 0 * 5 + rng.randint seed 8 (-5) 5),
        .intv (50 + 1 * 5 + rng.randint seed 9 (-5) 5),
        .intv (50 + 2 * 5 + rng.randint seed 10 (-5) 5)])]
    action_plan := [
      ("Action Item", [.strv "Schedule onboarding for marketing team",
                       .strv "Finalize BI tool integration specs",
                       .strv "Identify and train finance dept. champions"]),
      ("Owner", [.strv "John (CSM)", .strv "Jane (Customer IT)", .strv "Sarah (CSM)"]),
      ("Due Date", [.strv (fmtIso (today + 14)), .strv (fmtIso (today + 30)),
                    .strv (fmtIso (today + 45))]),
      ("Status", [.strv "Not Started", .strv "Not Started", .strv "Not Started"])] }

/-- `get_enhanced_mock_data(customer_name, tone)` under hash secret
`(k0, k1)`: seed numpy from the subject's hash, then build the data bag. -/
def get_enhanced_mock_data (rng : NpRng) (fmtIso : Int → String) (k0 k1 : Nat)
    (customer_name : String) (tone : String) (today : Int) : ReportFacts :=
  mockDataFromSeed rng fmtIso (npSeed k0 k1 customer_name) customer_name tone today

/-! ## Styling constants and the styled table routine (app.py lines 23-27, 116-148) -/

/-- An RGB color triple (`RGBColor` of python-pptx). -/
structure Rgb where
  r : Nat
  g : Nat
  b : Nat
deriving DecidableEq

def PRIMARY_COLOR_PPT : Rgb := ⟨10, 47, 87⟩
def ACCENT_COLOR_PPT : Rgb := ⟨0, 122, 255⟩
def TEXT_COLOR_PPT : Rgb := ⟨33, 33, 33⟩
def BACKGROUND_COLOR_PPT : Rgb := ⟨248, 249, 250⟩
def WHITE_COLOR : Rgb := ⟨255, 255, 255⟩

/-- Paragraph alignment (`PP_ALIGN`). -/
inductive Align where
  | center
  | left
deriving DecidableEq

/-- Style applied to a header cell of a rendered table. -/
structure HeaderCell where
  text : String
  bold : Bool
  color : Rgb
  fontSize : Nat
  fill : Option Rgb
  align : Align
deriving DecidableEq

/-- Style applied to a body cell of a rendered table (`fill = none` means the
cell keeps the default background: the source only calls `cell.fill.solid()`
on shaded rows). -/
structure BodyCell where
  text : String
  fontSize : Nat
  align : Align
  fill : Option Rgb
deriving DecidableEq

/-- A rendered table: one header row plus the body rows. -/
structure StyledTable where
  header : List HeaderCell
  body : List (List BodyCell)
deriving DecidableEq

/-- `df.shape[0]`: the number of rows of the frame (its columns have equal
length by construction). -/
def Table.numRows (t : Table) : Nat := (t.head?.map (fun c => c.2.length)).getD 0

/-- The `r`-th row of the frame, as iterated by `df.iterrows()`. -/
def Table.row (t : Table) (r : Nat) : List PyVal :=
  t.map (fun c => (c.2[r]?).getD (.strv ""))

/-- The cell styling performed by `add_styled_table_to_slide` (lines 124-148):
header row bold, white, 14pt, centered, filled with the primary color; body
cells 12pt, left-aligned, and — the zebra rule of line 146 — filled with the
alternate background exactly when the 0-indexed row is odd
(`if r_idx % 2 == 1`). -/
def styleTable (df : Table) : StyledTable :=
  { header := df.map (fun c =>
      { text := c.1, bold := true, color := WHITE_COLOR, fontSize := 14,
        fill := some PRIMARY_COLOR_PPT, align := .center }),
    body := (List.range df.numRows).map (fun r_idx => (df.row r_idx).map (fun v =>
      { text := v.pyStr, fontSize := 12, align := .left,
        fill := if r_idx % 2 = 1 then some BACKGROUND_COLOR_PPT else none })) }

/-- `add_styled_table_to_slide(slide, df, ...)`: line 122 computes the column
width `int(cx / df.shape[1])`, which raises `ZeroDivisionError` on a frame
with no columns; otherwise the styled table is placed on the slide. -/
def add_styled_table_to_slide (df : Table) : Except String StyledTable :=
  if df = [] then .error "ZeroDivisionError" else .ok (styleTable df)

/-! ## The row-centering layout (app.py lines 256-261)

`num_roadmap = len(data['roadmap']); box_width_r = 4.5; gap_r = 1.0;
total_width_r = num_roadmap * box_width_r + (num_roadmap - 1) * gap_r;
start_x_r = (16 - total_width_r) / 2`, and box `i` is placed at
`start_x_r + i * (box_width_r + gap_r)`.  All quantities involved are exactly
representable binary fractions, so rational arithmetic models the Python
float arithmetic exactly. -/

/-- `N·B + (N−1)·G`, the total width of the row of boxes. -/
def rowTotalWidth (n : Nat) (B G : ℚ) : ℚ := n * B + ((n : ℚ) - 1) * G

/-- `X = (W − total) / 2`, the left offset of the row. -/
def rowStartX (n : Nat) (B G W : ℚ) : ℚ := (W - rowTotalWidth n B G) / 2

/-- The configured box width `box_width_r = 4.5`. -/
def box_width_r : ℚ := 9 / 2

/-- The configured gap `gap_r = 1.0`. -/
def gap_r : ℚ := 1

/-- The slide width: `prs.slide_width = Inches(16)`. -/
def canvasWidth : ℚ := 16

/-- `total_width_r` as computed for the roadmap row. -/
def total_width_r (num_roadmap : Nat) : ℚ :=
  rowTotalWidth num_roadmap box_width_r gap_r

/-- `start_x_r` as computed for the roadmap row. -/
def start_x_r (num_roadmap : Nat) : ℚ :=
  rowStartX num_roadmap box_width_r gap_r canvasWidth

/-! ## The deck composer: `create_professional_qbr_deck` (app.py lines 170-274) -/

/-- One positioned roadmap column: quarter heading plus bulleted features. -/
structure RoadmapBox where
  left : ℚ
  quarter : String
  features : List String
deriving DecidableEq

/-- The slides the composer builds, with their displayed content. -/
inductive Slide where
  | titleSlide (title subtitle : String)
  | agendaSlide (title : String) (topics : List String)
  | kpiSlide (title : String) (gaugeScore : PyVal) (otherKpis : List (String × PyVal))
  | tableSlide (title : String) (table : StyledTable)
  | pairedTextSlide (title leftHeader : String) (leftItems : List String)
      (rightHeader : String) (rightItems : List String)
  | roadmapSlide (title : String) (boxes : List RoadmapBox)
deriving DecidableEq

/-- The layout kind of a slide. -/
inductive SlideKind where
  | titleK
  | agendaK
  | kpiK
  | tableK
  | pairedTextK
  | roadmapK
deriving DecidableEq

def Slide.kind : Slide → SlideKind
  | .titleSlide .. => .titleK
  | .agendaSlide .. => .agendaK
  | .kpiSlide .. => .kpiK
  | .tableSlide .. => .tableK
  | .pairedTextSlide .. => .pairedTextK
  | .roadmapSlide .. => .roadmapK

def Slide.titleText : Slide → String
  | .titleSlide t _ => t
  | .agendaSlide t _ => t
  | .kpiSlide t _ _ => t
  | .tableSlide t _ => t
  | .pairedTextSlide t _ _ _ _ => t
  | .roadmapSlide t _ => t

/-- The agenda topics of app.py line 219. -/
def agendaTopics : List String :=
  ["Quarterly Snapshot & Highlights", "Commitment Review",
   "Challenges & Key Learnings", "Objectives for Next Quarter (OKRs)",
   "Strategic Growth & Product Roadmap", "Joint Action Plan & Next Steps"]

/-- The roadmap columns built by the loop of lines 260-264: box `i` at
`start_x_r + i * (box_width_r + gap_r)`, features bulleted with `"• "`. -/
def roadmapBoxes (roadmap : List (String × List String)) : List RoadmapBox :=
  roadmap.mapIdx (fun i q =>
    { left := start_x_r roadmap.length + (i : ℚ) * (box_width_r + gap_r),
      quarter := q.1, features := q.2.map (fun f => "• " ++ f) })

/-- `create_professional_qbr_deck(data, logo_path)`: the nine slides added in
lines 215-269, in program order.  The fallible steps, in the order the Python
code reaches them: `data['kpis']['Account Health']` (line 226, `KeyError` if
absent) and the three styled tables (division by the column count).  The
roadmap content slide is added unconditionally at line 256, before the loop
over `data['roadmap']` — an empty roadmap yields the slide with no boxes. -/
def create_professional_qbr_deck (fmtLong : Int → String) (today : Int)
    (data : ReportFacts) : Except String (List Slide) := do
  let gaugeScore ← match data.kpis.lookup "Account Health" with
    | some v => Except.ok v
    | none => Except.error "KeyError: Account Health"
  let commitTable ← add_styled_table_to_slide data.commit_vs_actual
  let okrTable ← add_styled_table_to_slide data.okrs
  let planTable ← add_styled_table_to_slide data.action_plan
  Except.ok [
    .titleSlide ("Quarterly Business Review: " ++ data.customer_name)
      ("Q3 2025 Report | Prepared: " ++ fmtLong today),
    .agendaSlide "🗓️ Agenda" agendaTopics,
    .kpiSlide "⭐ Quarterly Snapshot: Highlights" gaugeScore
      (data.kpis.filter (fun kv => kv.1 != "Account Health")),
    .tableSlide "📊 Commitment Review: Promises vs. Reality" commitTable,
    .pairedTextSlide "💡 Challenges & Key Learnings"
      "Challenges Faced" (data.challenges.map (fun it => "• " ++ it))
      "Key Lessons Learned" (data.learnings.map (fun it => "• " ++ it)),
    .tableSlide "🎯 Objectives for Next Quarter (OKRs)" okrTable,
    .roadmapSlide "🗺️ Strategic Growth & Product Roadmap" (roadmapBoxes data.roadmap),
    .tableSlide "🤝 Joint Action Plan & Owners" planTable,
    .titleSlide "Thank You" "Q&A and Discussion"]

/-! ## The chart renderer: `create_mau_chart` (qbr_generator.py lines 61-78)

The function draws one line plot of the series, sets the title and axis
labels, and saves the figure.  It has no branch on the series being empty and
adds no text elements beyond the title and the axis labels; an empty frame
is plotted as an empty set of points on the same path. -/

/-- The content drawn by `create_mau_chart`: title, axis labels, the plotted
(Month, ActiveUsers) points, and any further text elements explicitly drawn
on the figure (the source draws none). -/
structure MauChart where
  title : String
  xlabel : String
  ylabel : String
  points : List (String × Int)
  extraTexts : List String
deriving DecidableEq

def create_mau_chart (mau_df : List (String × Int)) (customer_name : String) :
    MauChart :=
  { title := "Monthly Active Users (MAU) Trend for " ++ customer_name,
    xlabel := "Month", ylabel := "Active Users",
    points := mau_df, extraTexts := [] }

/-- Modelled from the spec: "if the series is empty, render a chart with an
explicit \x22no data\x22 placeholder".  A placeholder would be a text element
drawn on the chart besides the title and axis labels, so the spec's property
is that the rendered chart carries at least one such extra text element. -/
def specNoDataPlaceholder (c : MauChart) : Prop := c.extraTexts ≠ []

/-! ## The AI summary: `generate_ai_summary` (qbr_generator.py lines 45-58)

Line 51 computes
`((mau_df['ActiveUsers'].iloc[-1] - mau_df['ActiveUsers'].iloc[0]) / mau_df['ActiveUsers'].iloc[0]) * 100`.
On an empty column `.iloc[-1]` raises `IndexError` — the routine's only error
exit.  The `ActiveUsers` column is int64, so `.iloc` yields numpy int64
scalars, and numpy scalar true division by zero does NOT raise: it emits a
divide-by-zero `RuntimeWarning` and evaluates to `inf`, `-inf` or (for `0/0`)
`nan`, which the `:.1f` f-string format renders as exactly those words — the
summary string is still returned.  `fmtPct` stands for the `:.1f` formatting
of the finite growth percentage. -/

inductive PyError where
  | indexError
deriving DecidableEq

/-- The fields of `get_mock_customer_data`'s bag that the summary reads:
the subject, the `ActiveUsers` column, and the two KPIs. -/
structure CustomerData where
  customer_name : String
  mau : List Int
  healthScore : Int
  adoptionRate : Int
deriving DecidableEq

/-- What `f"{mau_growth:.1f}"` shows when the first series value is zero:
the growth expression divides `last - 0` by zero, and the numpy scalar
division yields `inf` for a positive numerator, `-inf` for a negative one and
`nan` for `0 / 0` (each with a `RuntimeWarning`, not an exception). -/
def zeroDivGrowthText (lastv : Int) : String :=
  if 0 < lastv then "inf" else if lastv < 0 then "-inf" else "nan"

/-- The summary sentence of lines 53-57, around the formatted growth text. -/
def summarySentence (data : CustomerData) (growth : String) : String :=
  "This quarter, " ++ data.customer_name ++
  " has demonstrated strong positive momentum. The Account Health Score is a robust " ++
  toString data.healthScore ++
  "/100, and product adoption remains high at " ++
  toString data.adoptionRate ++
  "%. We've observed a significant " ++ growth ++
  "% growth in Monthly Active Users over the period, indicating excellent engagement and value realization."

def generate_ai_summary (fmtPct : ℚ → String) (data : CustomerData) :
    Except PyError String :=
  match data.mau with
  | [] => .error .indexError
  | first :: rest =>
    let lastv := (first :: rest).getLast (List.cons_ne_nil first rest)
    let growthTxt :=
      if first = 0 then zeroDivGrowthText lastv
      else fmtPct (((lastv : ℚ) - (first : ℚ)) / (first : ℚ) * 100)
    .ok (summarySentence data growthTxt)

/-! ## The Create-Presentation button handler (app.py lines 410-453) -/

/-- The observable outcome of one press of the button. -/
inductive PressOutcome where
  | generated (deckSlides : List Slide) (fileName : String)
  | warned (msg : String)
  | errored (msg : String)
deriving DecidableEq

/-- `output_filename = f"QBR_{name.replace(' ', '_')}_{date.today()}.pptx"`
(line 272). -/
def outputFilename (customer_name : String) (fmtIso : Int → String)
    (today : Int) : String :=
  "QBR_" ++ customer_name.replace " " "_" ++ "_" ++ fmtIso today ++ ".pptx"

/-- The handler: `if customer_name:` (Python truthiness — nonempty string)
runs aggregation and composition and stores the artifact; otherwise it shows
`st.warning("Please enter a customer name.")` and generates nothing. -/
def createPresentationPress (rng : NpRng) (fmtIso fmtLong : Int → String)
    (k0 k1 : Nat) (customer_name tone : String) (today : Int) : PressOutcome :=
  if customer_name ≠ "" then
    let enhanced_data := get_enhanced_mock_data rng fmtIso k0 k1 customer_name tone today
    match create_professional_qbr_deck fmtLong today enhanced_data with
    | .ok deck => .generated deck (outputFilename customer_name fmtIso today)
    | .error e => .errored e
  else
    .warned "Please enter a customer name."

/-- The temporary files left on disk after one request, by walking the
handler's statements in program order (app.py lines 410-453).  `logoUploaded`:
a logo file is written at line 416.  `composeRaises`: the deck build raises
after the gauge image is saved (line 226) — e.g. a fault in the underlying
pptx/matplotlib library.  The source has no try/finally, so an exception
propagates and every later statement — including `os.remove(kpi_gauge_path)`
(line 228), the logo cleanup (lines 438-439) and the deck cleanup (lines
450-452) — is skipped. -/
def filesAfterRequest (logoUploaded composeRaises : Bool) : List String :=
  let files : List String := []
  let files := if logoUploaded then files ++ ["uploaded_logo"] else files
  let files := files ++ ["kpi_gauge.png"]
  if composeRaises then
    files
  else
    let files := files.erase "kpi_gauge.png"
    let files := files ++ ["QBR_output.pptx"]
    let files := if logoUploaded then files.erase "uploaded_logo" else files
    let files := files.erase "QBR_output.pptx"
    files

/-! ## Concrete fixtures for closed evaluations -/

/-- A concrete RandomState stream (each draw returns its lower bound; each
formatted uniform draw a fixed text), used to evaluate the model on closed
inputs.  The claims hold for every stream; this one makes witnesses
computable. -/
def exampleRng : NpRng := ⟨fun _ _ lo _ => lo, fun _ _ => "99.95"⟩

/-- A concrete stand-in for the date formatters. -/
def isoFmt : Int → String := fun d => toString d

/-- The aggregator's output for subject "Acme Co", Formal tone, hash secret
zero (a `PYTHONHASHSEED=0` run), on day ordinal 739000. -/
def exampleFacts : ReportFacts :=
  get_enhanced_mock_data exampleRng isoFmt 0 0 "Acme Co" "Formal" 739000

/-- `exampleFacts` with the roadmap mapping emptied. -/
def emptyRoadmapFacts : ReportFacts := { exampleFacts with roadmap := [] }

/-- A one-column frame with five body rows, for evaluating the zebra rule. -/
def zebraDemoTable : Table :=
  [("Metric", [.strv "r0", .strv "r1", .strv "r2", .strv "r3", .strv "r4"])]

/-- The rendering of `zebraDemoTable`. -/
def zebraDemoStyled : StyledTable := styleTable zebraDemoTable

/-- The bag of `get_mock_customer_data`, restricted to the fields the summary
reads, at three MAU series: the normal one, an empty one, a zero-headed one. -/
def mauDemoOk : CustomerData := ⟨"Innovate Inc.", [150, 172, 185, 196], 90, 80⟩

def mauDemoEmpty : CustomerData := ⟨"Innovate Inc.", [], 90, 80⟩

def mauDemoZero : CustomerData := ⟨"Innovate Inc.", [0, 5], 90, 80⟩

/-! ## Model validation and helper lemmas -/

/-- Validation of the hash model against CPython 3.11 with `PYTHONHASHSEED=0`. -/
theorem pyHashStr_model_check_seed0 :
    pyHashStr 0 0 "Acme Co" = -2588000989717219520 ∧
    pyHashStr 0 0 "Innovate Corp" = -270448351756584133 ∧
    pyHashStr 0 0 "a" = 4644417185603328019 ∧
    pyHashStr 0 0 "" = 0 := by
  refine ⟨?_, ?_, ?_, ?_⟩ <;> decide

/-- Validation against CPython 3.11 with `PYTHONHASHSEED=1`. -/
theorem pyHashStr_model_check_seed1 :
    pyHashStr (hashKeyOfSeed 1).1 (hashKeyOfSeed 1).2 "Acme Co" =
      -7049786994485111340 := by
  decide

/-! ## Helper: evaluating the composer -/

/-- On facts whose KPI mapping contains "Account Health" and whose three
tabulated frames have at least one column, `create_professional_qbr_deck`
returns exactly its nine slides, in program order. -/
theorem create_deck_eq (fmtLong : Int → String) (today : Int)
    (data : ReportFacts) (g : PyVal)
    (hg : data.kpis.lookup "Account Health" = some g)
    (hc : data.commit_vs_actual ≠ []) (ho : data.okrs ≠ [])
    (ha : data.action_plan ≠ []) :
    create_professional_qbr_deck fmtLong today data = Except.ok
      [.titleSlide ("Quarterly Business Review: " ++ data.customer_name)
          ("Q3 2025 Report | Prepared: " ++ fmtLong today),
        .agendaSlide "🗓️ Agenda" agendaTopics,
        .kpiSlide "⭐ Quarterly Snapshot: Highlights" g
          (data.kpis.filter (fun kv => kv.1 != "Account Health")),
        .tableSlide "📊 Commitment Review: Promises vs. Reality"
          (styleTable data.commit_vs_actual),
        .pairedTextSlide "💡 Challenges & Key Learnings" "Challenges Faced"
          (data.challenges.map (fun it => "• " ++ it)) "Key Lessons Learned"
          (data.learnings.map (fun it => "• " ++ it)),
        .tableSlide "🎯 Objectives for Next Quarter (OKRs)" (styleTable data.okrs),
        .roadmapSlide "🗺️ Strategic Growth & Product Roadmap"
          (roadmapBoxes data.roadmap),
        .tableSlide "🤝 Joint Action Plan & Owners" (styleTable data.action_plan),
        .titleSlide "Thank You" "Q&A and Discussion"] := by
  unfold create_professional_qbr_deck add_styled_table_to_slide
  rw [hg, if_neg hc, if_neg ho, if_neg ha]
  rfl

/-! ## Claim C1 — determinism of the aggregator and stability of its seed -/

/-- C1, counterexample.  The claim asserts the numpy seed is derived from a
*stable* hash of the subject, making results reproducible across separate
runs.  In CPython, `hash` on a string is salted by the per-process hash
secret: two actual interpreter runs (`PYTHONHASHSEED=0` and
`PYTHONHASHSEED=1`) hash "Acme Co" to different seeds, so the claim as
stated is false. -/
theorem C1_counterexample :
    npSeed (hashKeyOfSeed 0).1 (hashKeyOfSeed 0).2 "Acme Co" = 2778810895 ∧
    npSeed (hashKeyOfSeed 1).1 (hashKeyOfSeed 1).2 "Acme Co" = 297137640 ∧
    npSeed (hashKeyOfSeed 0).1 (hashKeyOfSeed 0).2 "Acme Co" ≠
      npSeed (hashKeyOfSeed 1).1 (hashKeyOfSeed 1).2 "Acme Co" := by
  refine ⟨by decide, by decide, by decide⟩

/-- C1, amended.  Within one interpreter run — a fixed hash secret — the
aggregator is deterministic: for every non-empty subject, calls with the same
subject, tone and date yield identical ReportFacts; more generally the output
depends on the hash secret only through the derived numpy seed.  (Across
separate runs the seed, and hence the draws, change with the per-process hash
salt unless `PYTHONHASHSEED` is fixed.) -/
theorem C1_theorem (rng : NpRng) (fmtIso : Int → String)
    (k0 k1 k0' k1' : Nat) (subject tone : String) (today : Int)
    (_hne : subject ≠ "")
    (hseed : npSeed k0 k1 subject = npSeed k0' k1' subject) :
    get_enhanced_mock_data rng fmtIso k0 k1 subject tone today =
      get_enhanced_mock_data rng fmtIso k0' k1' subject tone today := by
  unfold get_enhanced_mock_data
  rw [hseed]

/-- C1, witness: the amended determinism at subject "Acme Co" within the
`PYTHONHASHSEED=0` run. -/
theorem C1_witness :
    get_enhanced_mock_data exampleRng isoFmt 0 0 "Acme Co" "Formal" 739000 =
      get_enhanced_mock_data exampleRng isoFmt 0 0 "Acme Co" "Formal" 739000 :=
  C1_theorem exampleRng isoFmt 0 0 0 0 "Acme Co" "Formal" 739000
    (by decide) rfl

/-! ## Claim C2 — the row-centering layout -/

/-- C2, counterexample.  The claim asserts, for every `N ≥ 1` and
`B ≤ W`, that `X ≥ 0` and `X + N·B + (N−1)·G = W`.  Both parts fail on the
code's configured values `B = 4.5`, `G = 1.0`, `W = 16`: at the code's own
`N = 3`, `X = 1/4` but `X + total = 63/4 ≠ 16` (the correct centering
identity has `X` on both sides); and at `N = 4` (still `B ≤ W`),
`X = -5/2 < 0`. -/
theorem C2_counterexample :
    (1 ≤ 3 ∧ box_width_r ≤ canvasWidth ∧
      start_x_r 3 + total_width_r 3 ≠ canvasWidth) ∧
    (1 ≤ 4 ∧ box_width_r ≤ canvasWidth ∧ ¬ 0 ≤ start_x_r 4) := by
  constructor
  · refine ⟨by norm_num, by norm_num [box_width_r, canvasWidth], ?_⟩
    norm_num [start_x_r, total_width_r, rowStartX, rowTotalWidth,
      box_width_r, gap_r, canvasWidth]
  · refine ⟨by norm_num, by norm_num [box_width_r, canvasWidth], ?_⟩
    norm_num [start_x_r, rowStartX, rowTotalWidth, box_width_r, gap_r,
      canvasWidth]

/-- C2, amended.  For every `N ≥ 1`, provided the whole row fits —
`N·B + (N−1)·G ≤ W`, which the hypothesis `B ≤ W` alone does not give —
the layout satisfies `X ≥ 0` and the symmetric-centering identity
`X + (N·B + (N−1)·G) + X = W`: the left and right margins are equal. -/
theorem C2_theorem (n : Nat) (B G W : ℚ) (_hn : 1 ≤ n)
    (hfit : rowTotalWidth n B G ≤ W) :
    rowTotalWidth n B G = n * B + ((n : ℚ) - 1) * G ∧
    rowStartX n B G W = (W - rowTotalWidth n B G) / 2 ∧
    0 ≤ rowStartX n B G W ∧
    rowStartX n B G W + rowTotalWidth n B G + rowStartX n B G W = W := by
  refine ⟨rfl, rfl, ?_, ?_⟩
  · unfold rowStartX
    linarith
  · unfold rowStartX
    ring

/-- C2, witness: the amended layout invariant at the code's actual roadmap
configuration `N = 3`, `B = 4.5`, `G = 1.0`, `W = 16`. -/
theorem C2_witness :
    rowTotalWidth 3 box_width_r gap_r = 3 * box_width_r + ((3 : ℚ) - 1) * gap_r ∧
    rowStartX 3 box_width_r gap_r canvasWidth =
      (canvasWidth - rowTotalWidth 3 box_width_r gap_r) / 2 ∧
    0 ≤ rowStartX 3 box_width_r gap_r canvasWidth ∧
    rowStartX 3 box_width_r gap_r canvasWidth + rowTotalWidth 3 box_width_r gap_r +
      rowStartX 3 box_width_r gap_r canvasWidth = canvasWidth :=
  C2_theorem 3 box_width_r gap_r canvasWidth (by norm_num)
    (by norm_num [rowTotalWidth, box_width_r, gap_r, canvasWidth])

/-! ## Claim C3 — slide count and order of the composed deck -/

/-- C3, counterexample.  The claim asserts the composed deck for subject
"Acme Co" with all sections populated has exactly 10 slides, one of them a
dedicated chart slide.  The composer adds nine slides (lines 216-269) and
never builds a revenue-forecast chart slide — the only chart is the KPI gauge
image embedded in the snapshot slide — so no run of the composer yields 10
slides. -/
theorem C3_counterexample :
    ¬ ∃ slides, create_professional_qbr_deck isoFmt 739000 exampleFacts =
        Except.ok slides ∧ slides.length = 10 := by
  rintro ⟨slides, hs, hlen⟩
  rw [create_deck_eq isoFmt 739000 exampleFacts (.intv 75) rfl
    (List.cons_ne_nil _ _) (List.cons_ne_nil _ _) (List.cons_ne_nil _ _)] at hs
  injection hs with h
  subst h
  exact absurd hlen (by decide)

/-- C3, amended.  The composed deck contains exactly 9 slides in the fixed
order Title, Agenda, KPI snapshot, commitment table, challenges/learnings,
OKR table, roadmap columns, action-plan table, closing slide — with no
separate chart slide (the KPI gauge chart is embedded inside the snapshot
slide). -/
theorem C3_theorem (fmtLong : Int → String) (today : Int) (data : ReportFacts)
    (g : PyVal) (hg : data.kpis.lookup "Account Health" = some g)
    (hc : data.commit_vs_actual ≠ []) (ho : data.okrs ≠ [])
    (ha : data.action_plan ≠ []) :
    ∃ slides, create_professional_qbr_deck fmtLong today data = Except.ok slides ∧
      slides.length = 9 ∧
      slides.map Slide.kind =
        [.titleK, .agendaK, .kpiK, .tableK, .pairedTextK, .tableK, .roadmapK,
         .tableK, .titleK] ∧
      slides.map Slide.titleText =
        ["Quarterly Business Review: " ++ data.customer_name, "🗓️ Agenda",
         "⭐ Quarterly Snapshot: Highlights",
         "📊 Commitment Review: Promises vs. Reality",
         "💡 Challenges & Key Learnings",
         "🎯 Objectives for Next Quarter (OKRs)",
         "🗺️ Strategic Growth & Product Roadmap",
         "🤝 Joint Action Plan & Owners", "Thank You"] :=
  ⟨_, create_deck_eq fmtLong today data g hg hc ho ha, rfl, rfl, rfl⟩

/-- C3, witness: the amended deck structure evaluated end-to-end on subject
"Acme Co" with every section populated. -/
theorem C3_witness :
    ∃ slides, create_professional_qbr_deck isoFmt 739000 exampleFacts =
        Except.ok slides ∧
      slides.length = 9 ∧
      slides.map Slide.kind =
        [.titleK, .agendaK, .kpiK, .tableK, .pairedTextK, .tableK, .roadmapK,
         .tableK, .titleK] ∧
      slides.map Slide.titleText =
        ["Quarterly Business Review: " ++ exampleFacts.customer_name, "🗓️ Agenda",
         "⭐ Quarterly Snapshot: Highlights",
         "📊 Commitment Review: Promises vs. Reality",
         "💡 Challenges & Key Learnings",
         "🎯 Objectives for Next Quarter (OKRs)",
         "🗺️ Strategic Growth & Product Roadmap",
         "🤝 Joint Action Plan & Owners", "Thank You"] :=
  C3_theorem isoFmt 739000 exampleFacts (.intv 75) rfl
    (List.cons_ne_nil _ _) (List.cons_ne_nil _ _) (List.cons_ne_nil _ _)

/-! ## Claim C4 — composing with an empty roadmap -/

/-- C4, counterexample.  The claim asserts that a deck composed from facts
with an empty roadmap mapping omits the roadmap slide entirely.  The composer
adds the roadmap content slide unconditionally at line 256, before iterating
over `data['roadmap']`, so the slide is present (with zero columns) in every
successful composition. -/
theorem C4_counterexample :
    ¬ ∃ slides, create_professional_qbr_deck isoFmt 739000 emptyRoadmapFacts =
        Except.ok slides ∧ ∀ s ∈ slides, s.kind ≠ SlideKind.roadmapK := by
  rintro ⟨slides, hs, hno⟩
  rw [create_deck_eq isoFmt 739000 emptyRoadmapFacts (.intv 75) rfl
    (List.cons_ne_nil _ _) (List.cons_ne_nil _ _) (List.cons_ne_nil _ _)] at hs
  injection hs with h
  subst h
  exact hno (.roadmapSlide "🗺️ Strategic Growth & Product Roadmap"
    (roadmapBoxes emptyRoadmapFacts.roadmap)) (by simp) rfl

/-- C4, amended.  Composing a deck from ReportFacts whose roadmap mapping is
empty succeeds without error, and the deck still contains the roadmap slide —
as slide 7 of 9, with its title and zero feature columns — rather than
omitting it. -/
theorem C4_theorem (fmtLong : Int → String) (today : Int) (data : ReportFacts)
    (g : PyVal) (hg : data.kpis.lookup "Account Health" = some g)
    (hc : data.commit_vs_actual ≠ []) (ho : data.okrs ≠ [])
    (ha : data.action_plan ≠ []) (hr : data.roadmap = []) :
    ∃ slides, create_professional_qbr_deck fmtLong today data = Except.ok slides ∧
      slides.map Slide.kind =
        [.titleK, .agendaK, .kpiK, .tableK, .pairedTextK, .tableK, .roadmapK,
         .tableK, .titleK] ∧
      slides[6]? =
        some (.roadmapSlide "🗺️ Strategic Growth & Product Roadmap" []) := by
  refine ⟨_, create_deck_eq fmtLong today data g hg hc ho ha, rfl, ?_⟩
  rw [hr]
  rfl

/-- C4, witness: the amended behaviour evaluated on concrete facts with the
roadmap mapping emptied. -/
theorem C4_witness :
    ∃ slides, create_professional_qbr_deck isoFmt 739000 emptyRoadmapFacts =
        Except.ok slides ∧
      slides.map Slide.kind =
        [.titleK, .agendaK, .kpiK, .tableK, .pairedTextK, .tableK, .roadmapK,
         .tableK, .titleK] ∧
      slides[6]? =
        some (.roadmapSlide "🗺️ Strategic Growth & Product Roadmap" []) :=
  C4_theorem isoFmt 739000 emptyRoadmapFacts (.intv 75) rfl
    (List.cons_ne_nil _ _) (List.cons_ne_nil _ _) (List.cons_ne_nil _ _) rfl

/-! ## Claim C5 — header styling and zebra striping of rendered tables -/

/-- C5: in every successfully rendered table, each header cell is bold, white,
14pt, filled with the primary color, and body row `i` (0-indexed) carries the
alternate background fill exactly when `i` is odd (`if r_idx % 2 == 1`,
line 146) — for every row count, including R = 0, 1, 2, 5. -/
theorem C5_theorem (df : Table) (st : StyledTable)
    (h : add_styled_table_to_slide df = Except.ok st) :
    (∀ hc ∈ st.header, hc.bold = true ∧ hc.color = WHITE_COLOR ∧
        hc.fontSize = 14 ∧ hc.fill = some PRIMARY_COLOR_PPT) ∧
    (∀ i row, st.body[i]? = some row → ∀ c ∈ row,
        c.fill = if i % 2 = 1 then some BACKGROUND_COLOR_PPT else none) := by
  unfold add_styled_table_to_slide at h
  by_cases hdf : df = []
  · rw [if_pos hdf] at h
    exact absurd h (by simp)
  · rw [if_neg hdf] at h
    injection h with h2
    subst h2
    constructor
    · intro hc hmem
      obtain ⟨c, _, rfl⟩ := List.mem_map.mp hmem
      exact ⟨rfl, rfl, rfl, rfl⟩
    · intro i row hrow c hcmem
      unfold styleTable at hrow
      simp only [List.getElem?_map] at hrow
      by_cases hi : i < df.numRows
      · rw [List.getElem?_range hi] at hrow
        have hr2 : ((df.row i).map (fun v =>
            { text := v.pyStr, fontSize := 12, align := .left,
              fill := if i % 2 = 1 then some BACKGROUND_COLOR_PPT else none :
              BodyCell })) = row := Option.some.inj hrow
        subst hr2
        obtain ⟨v, _, rfl⟩ := List.mem_map.mp hcmem
        rfl
      · rw [List.getElem?_eq_none
          (by simpa [List.length_range] using Nat.le_of_not_lt hi)] at hrow
        exact absurd hrow (by simp)

/-- C5, witness: the styling rules evaluated on the concrete five-row table. -/
theorem C5_witness :
    (∀ hc ∈ zebraDemoStyled.header, hc.bold = true ∧ hc.color = WHITE_COLOR ∧
        hc.fontSize = 14 ∧ hc.fill = some PRIMARY_COLOR_PPT) ∧
    (∀ i row, zebraDemoStyled.body[i]? = some row → ∀ c ∈ row,
        c.fill = if i % 2 = 1 then some BACKGROUND_COLOR_PPT else none) :=
  C5_theorem zebraDemoTable zebraDemoStyled rfl

/-! ## Claim C6 — aggregation never fails; empty subject warns -/

/-- C6: pressing Create Presentation with a non-empty subject always runs the
aggregation (which is total) and composition to completion and produces the
artifact; with the empty subject the handler reports the invalid input via
`st.warning` and constructs neither ReportFacts nor an artifact. -/
theorem C6_theorem (rng : NpRng) (fmtIso fmtLong : Int → String) (k0 k1 : Nat)
    (subject tone : String) (today : Int) :
    (subject ≠ "" → ∃ slides,
        createPresentationPress rng fmtIso fmtLong k0 k1 subject tone today =
          PressOutcome.generated slides (outputFilename subject fmtIso today)) ∧
    (subject = "" →
        createPresentationPress rng fmtIso fmtLong k0 k1 subject tone today =
          PressOutcome.warned "Please enter a customer name.") := by
  constructor
  · intro hne
    have eq := create_deck_eq fmtLong today
      (get_enhanced_mock_data rng fmtIso k0 k1 subject tone today)
      (.intv (rng.randint (npSeed k0 k1 subject) 0 75 98)) rfl
      (List.cons_ne_nil _ _) (List.cons_ne_nil _ _) (List.cons_ne_nil _ _)
    exact ⟨_, by unfold createPresentationPress; rw [if_pos hne]; dsimp only; rw [eq]⟩
  · intro he
    subst he
    rfl

/-- C6, witness: the two branches evaluated at subject "Acme Co" and at the
empty subject. -/
theorem C6_witness :
    (∃ slides,
        createPresentationPress exampleRng isoFmt isoFmt 0 0 "Acme Co" "Formal"
          739000 =
          PressOutcome.generated slides (outputFilename "Acme Co" isoFmt 739000)) ∧
    createPresentationPress exampleRng isoFmt isoFmt 0 0 "" "Formal" 739000 =
      PressOutcome.warned "Please enter a customer name." :=
  ⟨(C6_theorem exampleRng isoFmt isoFmt 0 0 "Acme Co" "Formal" 739000).1
      (by decide),
   (C6_theorem exampleRng isoFmt isoFmt 0 0 "" "Formal" 739000).2 rfl⟩

/-! ## Claim C7 — empty series chart -/

/-- C7, counterexample.  The claim asserts that rendering an empty series
produces an image containing an explicit "no data" placeholder.
`create_mau_chart` has no empty-series branch and draws no text element
besides the title and axis labels, so the chart rendered from the empty
series carries no placeholder. -/
theorem C7_counterexample :
    ¬ specNoDataPlaceholder (create_mau_chart [] "Acme Co") :=
  fun hplaceholder => hplaceholder rfl

/-- C7, amended.  Rendering an empty series takes the same path as any other
series: it yields a chart with the usual title and axis labels, zero plotted
points, and no "no data" placeholder text (the renderer has no empty-series
branch; it does not raise in the model, and whether the figure is saved
blank is a library matter). -/
theorem C7_theorem (customer_name : String) :
    create_mau_chart [] customer_name =
      { title := "Monthly Active Users (MAU) Trend for " ++ customer_name,
        xlabel := "Month", ylabel := "Active Users",
        points := [], extraTexts := [] } := rfl

/-! ## Claim C8 — temp-file cleanup -/

/-- C8, counterexample.  The claim asserts every temporary file is removed on
every path, including when composition raises mid-pipeline.  The handler has
no try/finally: when the deck build raises after the gauge image is written,
both the uploaded logo and the gauge image are left on disk. -/
theorem C8_counterexample :
    filesAfterRequest true true = ["uploaded_logo", "kpi_gauge.png"] ∧
    filesAfterRequest true true ≠ [] := by
  refine ⟨by decide, by decide⟩

/-- C8, amended.  On the success path every temporary file (logo upload,
gauge image, output artifact) is removed by the end of the request; but on
the failure path where composition raises after the gauge image is written,
cleanup is skipped and the gauge image — plus the uploaded logo, if any —
remains on disk. -/
theorem C8_theorem :
    (∀ logoUploaded : Bool, filesAfterRequest logoUploaded false = []) ∧
    filesAfterRequest true true = ["uploaded_logo", "kpi_gauge.png"] ∧
    filesAfterRequest false true = ["kpi_gauge.png"] := by
  refine ⟨?_, by decide, by decide⟩
  intro logoUploaded
  cases logoUploaded <;> decide

/-! ## Claim C9 — the tone changes only the tone-derived entries -/

/-- C9: switching the tone from "Formal" to "Optimistic" for the same subject
on the same day changes only the tone bookkeeping entries of the returned
mapping (`tone` and the two prefix strings) and the challenges and learnings
lists — each item gaining the fixed tone prefix — while the KPIs,
commitment-vs-actual table, OKRs, roadmap, revenue forecast and action plan
are identical. -/
theorem C9_theorem (rng : NpRng) (fmtIso : Int → String) (k0 k1 : Nat)
    (subject : String) (today : Int) :
    get_enhanced_mock_data rng fmtIso k0 k1 subject "Optimistic" today =
      { get_enhanced_mock_data rng fmtIso k0 k1 subject "Formal" today with
        tone := "Optimistic",
        challenge_lead := "Opportunity for growth: ",
        learning_lead := "Valuable insight gained: ",
        challenges :=
          (get_enhanced_mock_data rng fmtIso k0 k1 subject "Formal"
            today).challenges.map (fun c => "Opportunity for growth: " ++ c),
        learnings :=
          (get_enhanced_mock_data rng fmtIso k0 k1 subject "Formal"
            today).learnings.map (fun c => "Valuable insight gained: " ++ c) } :=
  rfl

/-! ## Claim C10 — precondition of the AI summary -/

/-- C10, counterexample.  The claim asserts that a zero first ActiveUsers
value reaches the error branch (division by zero).  The `ActiveUsers` column
holds numpy int64 scalars, whose division by zero warns and yields an
infinity instead of raising, so on the series `[0, 5]` the routine still
returns the summary string — with the growth rendered as "inf" — and no
error occurs. -/
theorem C10_counterexample :
    generate_ai_summary (fun _ => "") mauDemoZero =
      Except.ok ("This quarter, Innovate Inc. has demonstrated strong positive momentum. The Account Health Score is a robust 90/100, and product adoption remains high at 80%. We've observed a significant inf% growth in Monthly Active Users over the period, indicating excellent engagement and value realization.") :=
  rfl

/-- C10, amended.  The summary generator's unstated precondition is only the
non-emptiness of the MAU series: for every non-empty series — a nonzero
first value or not — `generate_ai_summary` returns a summary string without
error.  The growth expression does divide by the first element, so the empty
series reaches the index error (`.iloc[-1]`), but a zero first value does
not error: the numpy scalar division by zero warns and yields
`inf`/`-inf`/`nan`, which the summary embeds as its growth text. -/
theorem C10_theorem (fmtPct : ℚ → String) (data : CustomerData) :
    (∀ first rest, data.mau = first :: rest →
        ∃ s, generate_ai_summary fmtPct data = Except.ok s) ∧
    (data.mau = [] →
        generate_ai_summary fmtPct data = Except.error PyError.indexError) ∧
    (∀ rest, data.mau = 0 :: rest →
        generate_ai_summary fmtPct data = Except.ok (summarySentence data
          (zeroDivGrowthText ((0 :: rest).getLast (List.cons_ne_nil 0 rest))))) := by
  refine ⟨?_, ?_, ?_⟩
  · intro first rest hm
    simp only [generate_ai_summary, hm]
    exact ⟨_, rfl⟩
  · intro hm
    simp [generate_ai_summary, hm]
  · intro rest hm
    simp [generate_ai_summary, hm]

/-- C10, witness: the three behaviours evaluated on concrete data bags — a
normal series, the empty series, and the zero-headed series. -/
theorem C10_witness :
    (∃ s, generate_ai_summary (fun _ => "") mauDemoOk = Except.ok s) ∧
    generate_ai_summary (fun _ => "") mauDemoEmpty =
      Except.error PyError.indexError ∧
    generate_ai_summary (fun _ => "") mauDemoZero =
      Except.ok (summarySentence mauDemoZero
        (zeroDivGrowthText ((0 :: [5]).getLast (List.cons_ne_nil 0 [5])))) :=
  ⟨(C10_theorem (fun _ => "") mauDemoOk).1 150 [172, 185, 196] rfl,
   (C10_theorem (fun _ => "") mauDemoEmpty).2.1 rfl,
   (C10_theorem (fun _ => "") mauDemoZero).2.2 [5] rfl⟩

end QBR
